import Mathlib

/-!
Shallow embedding of `falcon/media/validators/jsonschema.py`: the
`validate` decorator factory and its synchronous (`_validate`) and
asynchronous (`_validate_async`) wrapper builders.

Exceptions are modelled with `Except`; the deserialized media payloads
(`req.media`, `resp.media`) are fields of an explicit state record; the
external `jsonschema.validate` call is a parameter of the wrappers, with
its `format_checker` keyword made explicit so that the call sites of the
source are rendered faithfully.
-/

namespace Falcon.Jsonschema

/-- A `jsonschema.FormatChecker()` instance, as constructed at the four
validation call sites (lines 65, 79, 103, 117 of the source). -/
inductive FormatChecker where
  | mk
  deriving DecidableEq, Repr

/-- The exceptions that flow through the wrapper:
`jsonschema.ValidationError` (with its `message` attribute),
`falcon.HTTPBadRequest` (title and description, lines 68-71),
`falcon.HTTPInternalServerError` (title, and a description that the
source never supplies, lines 82-87), and any other exception
(e.g. `jsonschema.SchemaError` or an exception raised by the handler),
identified by an opaque tag. -/
inductive Exc where
  | validationError (message : String)
  | httpBadRequest (title : String) (description : String)
  | httpInternalServerError (title : String) (description : Option String)
  | other (tag : String)
  deriving DecidableEq, Repr

/-- Whether an exception is a `jsonschema.ValidationError`, i.e. is caught
by the `except jsonschema.ValidationError` clauses. -/
def Exc.isValidationError : Exc → Bool
  | .validationError _ => true
  | _ => false

/-- The description attribute of an HTTP error (`None` when not given). -/
def Exc.description : Exc → Option String
  | .httpBadRequest _ d => some d
  | .httpInternalServerError _ d => d
  | _ => none

/-- The title of an HTTP error / message of a validation error. -/
def Exc.title : Exc → Option String
  | .validationError m => some m
  | .httpBadRequest t _ => some t
  | .httpInternalServerError t _ => some t
  | .other _ => none

/-- The mutable per-request state the wrapper touches: the deserialized
request body (`req.media`, also what `await req.get_media()` yields) and
the deserialized response body (`resp.media`). -/
structure St (μ : Type) where
  reqMedia : μ
  respMedia : μ

/-- The external `jsonschema.validate(instance, schema, format_checker=...)`
call: it returns unit, or raises `ValidationError`, or raises some other
exception. An abstract parameter of the wrappers. -/
abbrev Validator (σ μ : Type) := μ → σ → Option FormatChecker → Except Exc Unit

/-- A handler `func(self, req, resp, *args, **kwargs)` with `self` folded
in: it reads the state, may update `resp.media` (and even `req.media`),
receives the pass-through arguments, and returns a result or raises. -/
abbrev Handler (μ α β : Type) := St μ → α → Except Exc (St μ × β)

/-- Lines 61-71 / 97-109: the request-validation `try` block.
`jsonschema.validate(m, req_schema, format_checker=jsonschema.FormatChecker())`;
a `ValidationError` is converted to
`falcon.HTTPBadRequest('Request data failed validation', description=e.message)`;
any other exception propagates. -/
def reqCheck (V : Validator σ μ) (req_schema : σ) (m : μ) : Except Exc Unit :=
  match V m req_schema (some FormatChecker.mk) with
  | .error (.validationError msg) =>
      .error (.httpBadRequest "Request data failed validation" msg)
  | .error e => .error e
  | .ok () => .ok ()

/-- Lines 75-87 / 113-125: the response-validation `try` block.
`jsonschema.validate(resp.media, resp_schema, format_checker=jsonschema.FormatChecker())`;
a `ValidationError` is converted to
`falcon.HTTPInternalServerError('Response data failed validation')` with no
description (the validator message is deliberately dropped); any other
exception propagates. -/
def respCheck (V : Validator σ μ) (resp_schema : σ) (m : μ) : Except Exc Unit :=
  match V m resp_schema (some FormatChecker.mk) with
  | .error (.validationError _) =>
      .error (.httpInternalServerError "Response data failed validation" none)
  | .error e => .error e
  | .ok () => .ok ()

/-- Lines 58-91: `_validate(func, req_schema, resp_schema)` applied to the
wrapper's runtime arguments. If `req_schema is not None`, validate
`req.media` first; then `result = func(self, req, resp, *args, **kwargs)`;
if `resp_schema is not None`, validate `resp.media`; return `result`. -/
def _validate (V : Validator σ μ) (func : Handler μ α β)
    (req_schema resp_schema : Option σ) (st : St μ) (args : α) :
    Except Exc (St μ × β) :=
  match (match req_schema with
         | some s => reqCheck V s st.reqMedia
         | none => .ok ()) with
  | .error e => .error e
  | .ok () =>
    match func st args with
    | .error e => .error e
    | .ok (st1, result) =>
      match (match resp_schema with
             | some s => respCheck V s st1.respMedia
             | none => .ok ()) with
      | .error e => .error e
      | .ok () => .ok (st1, result)

/-- Lines 94-129: `_validate_async(func, req_schema, resp_schema)` applied
to the wrapper's runtime arguments. `m = await req.get_media()` retrieves
the deserialized request body (the same value `req.media` denotes in the
synchronous variant); the validation and the `await func(...)` call follow
the same order as the synchronous wrapper. -/
def _validate_async (V : Validator σ μ) (func : Handler μ α β)
    (req_schema resp_schema : Option σ) (st : St μ) (args : α) :
    Except Exc (St μ × β) :=
  match (match req_schema with
         | some s =>
             let m := st.reqMedia
             reqCheck V s m
         | none => .ok ()) with
  | .error e => .error e
  | .ok () =>
    match func st args with
    | .error e => .error e
    | .ok (st1, result) =>
      match (match resp_schema with
             | some s => respCheck V s st1.respMedia
             | none => .ok ()) with
      | .error e => .error e
      | .ok () => .ok (st1, result)

/-- Lines 12-55: the `validate(req_schema=None, resp_schema=None)` decorator
factory. Its `decorator(func)` picks `_validate_async` when
`iscoroutinefunction(func)` holds and `_validate` otherwise. -/
def validate (V : Validator σ μ) (req_schema resp_schema : Option σ)
    (iscoroutinefunction : Bool) (func : Handler μ α β) :
    St μ → α → Except Exc (St μ × β) :=
  if iscoroutinefunction then
    _validate_async V func req_schema resp_schema
  else
    _validate V func req_schema resp_schema

/-- Observable steps of one wrapper invocation, for the ordering claims:
a `jsonschema.validate` call on the request body, the call of the wrapped
handler, a `jsonschema.validate` call on the response body. -/
inductive Ev where
  | validateReq
  | callHandler
  | validateResp
  deriving DecidableEq, Repr

/-- `_validate` instrumented with the trace of observable steps: the same
control flow as `_validate`, additionally recording each
`jsonschema.validate` call and the handler call in execution order. -/
def _validateEv (V : Validator σ μ) (func : Handler μ α β)
    (req_schema resp_schema : Option σ) (st : St μ) (args : α) :
    Except Exc (St μ × β) × List Ev :=
  match (match req_schema with
         | some s => (reqCheck V s st.reqMedia, [Ev.validateReq])
         | none => (.ok (), [])) with
  | (.error e, t) => (.error e, t)
  | (.ok (), t) =>
    match func st args with
    | .error e => (.error e, t ++ [Ev.callHandler])
    | .ok (st1, result) =>
      match (match resp_schema with
             | some s => (respCheck V s st1.respMedia, [Ev.validateResp])
             | none => (.ok (), [])) with
      | (.error e, t2) => (.error e, (t ++ [Ev.callHandler]) ++ t2)
      | (.ok (), t2) => (.ok (st1, result), (t ++ [Ev.callHandler]) ++ t2)

/-- `_validate_async` instrumented with the trace of observable steps. -/
def _validate_asyncEv (V : Validator σ μ) (func : Handler μ α β)
    (req_schema resp_schema : Option σ) (st : St μ) (args : α) :
    Except Exc (St μ × β) × List Ev :=
  match (match req_schema with
         | some s =>
             let m := st.reqMedia
             (reqCheck V s m, [Ev.validateReq])
         | none => (.ok (), [])) with
  | (.error e, t) => (.error e, t)
  | (.ok (), t) =>
    match func st args with
    | .error e => (.error e, t ++ [Ev.callHandler])
    | .ok (st1, result) =>
      match (match resp_schema with
             | some s => (respCheck V s st1.respMedia, [Ev.validateResp])
             | none => (.ok (), [])) with
      | (.error e, t2) => (.error e, (t ++ [Ev.callHandler]) ++ t2)
      | (.ok (), t2) => (.ok (st1, result), (t ++ [Ev.callHandler]) ++ t2)

/-- A deserialized JSON document, as produced by the framework's media
layer and fed to `jsonschema.validate`. -/
inductive Json where
  | null
  | bool (b : Bool)
  | num (n : Int)
  | str (s : String)
  | arr (elts : List Json)
  | obj (fields : List (String × Json))

/-- A fragment of a JSON Schema document covering the keywords the spec
exercises: `type`, `required` and `format`. -/
structure JSchema where
  type : Option String := none
  required : List String := []
  format : Option String := none

/-- Modelled from the spec: the default format checkers of the external
`jsonschema.FormatChecker` ("an extension to JSON Schema validation that
checks semantic string formats (e.g., email, date-time)"); the library
itself is not part of this repository. Here the `email` format demands
an `@` sign; unknown formats are accepted. -/
def checkFormat : String → String → Bool
  | "email", v => v.data.contains '@'
  | _, _ => true

/-- Modelled from the spec: the `type` keyword of json-schema.org
("a declarative specification describing the structural constraints a
JSON document must satisfy"); unknown type names constrain nothing. -/
def typeOk : String → Json → Bool
  | "object", .obj _ => true
  | "object", _ => false
  | "string", .str _ => true
  | "string", _ => false
  | "array", .arr _ => true
  | "array", _ => false
  | _, _ => true

/-- Modelled from the spec: the external `jsonschema.validate` call on the
schema fragment above (the `jsonschema` package itself is not part of this
repository). It checks `type`, then `required` (on objects only; the
failure message references the missing property, e.g.
`'name' is a required property`), then `format` — the latter only when a
format checker instance was passed. -/
def jsValidate (m : Json) (s : JSchema) (fc : Option FormatChecker) :
    Except Exc Unit :=
  let formatStep : Except Exc Unit :=
    match s.format, m, fc with
    | some f, .str v, some _ =>
        if checkFormat f v then .ok ()
        else .error (.validationError
            ("\x27" ++ v ++ "\x27 is not a \x27" ++ f ++ "\x27"))
    | _, _, _ => .ok ()
  let requiredStep : Except Exc Unit :=
    match m with
    | .obj fields =>
        match s.required.find? (fun k => !(fields.map Prod.fst).contains k) with
        | some k => .error (.validationError
            ("\x27" ++ k ++ "\x27 is a required property"))
        | none => formatStep
    | _ => formatStep
  match s.type with
  | some t =>
      if typeOk t m then requiredStep
      else .error (.validationError
          ("data is not of type \x27" ++ t ++ "\x27"))
  | none => requiredStep

/-- Whether `pre` is a prefix of `l`, on character lists. -/
def hasPrefixList : List Char → List Char → Bool
  | [], _ => true
  | _ :: _, [] => false
  | c :: cs, d :: ds => c == d && hasPrefixList cs ds

/-- Whether `needle` occurs as a contiguous run inside `l`. -/
def mentionsAux (needle : List Char) : List Char → Bool
  | [] => hasPrefixList needle []
  | c :: cs => hasPrefixList needle (c :: cs) || mentionsAux needle cs

/-- Whether `needle` occurs as a substring of `haystack`. -/
def mentions (haystack needle : String) : Bool :=
  mentionsAux needle.data haystack.data

/-- The example schema of the spec: `{"type": "object", "required": ["name"]}`. -/
def nameSchema : JSchema := { type := some "object", required := ["name"] }

/-- The example passing payload of the spec: `{"name": "x"}`. -/
def goodPayload : Json := .obj [("name", .str "x")]

/-- The example failing payload of the spec: `{}`. -/
def emptyPayload : Json := .obj []

/-- A schema with only a `format` constraint: every structural constraint
is vacuous, a violation can come only from the format checker. -/
def emailSchema : JSchema := { format := some "email" }

/-- A concrete handler that touches nothing and returns `42`. -/
def okHandler : Handler Json Unit Nat := fun st _ => .ok (st, 42)

/-- A concrete handler that stores `v` into `resp.media` and returns `7`. -/
def setHandler (v : Json) : Handler Json Unit Nat :=
  fun st _ => .ok ({ st with respMedia := v }, 7)

/-- A concrete handler that raises `e`. -/
def raiseHandler (e : Exc) : Handler Json Unit Nat := fun _ _ => .error e

/-- A concrete validator that always raises a non-ValidationError
exception (as `jsonschema.validate` does on a malformed schema, raising
`jsonschema.SchemaError`). -/
def badValidator : Validator JSchema Json :=
  fun _ _ _ => .error (.other "SchemaError")

/-- A concrete initial state with the given request body and a `null`
response body. -/
def st0 (m : Json) : St Json := { reqMedia := m, respMedia := Json.null }

/-- C1: for every handler decorated with a non-None request schema and
every request whose deserialized body violates that schema, both wrappers
raise `falcon.HTTPBadRequest` whose description is the validator's failure
message; the conclusion holds for every handler `func`, so the handler
body is never invoked and no handler side effects occur. -/
theorem C1_req_invalid_blocks_handler {σ μ α β : Type}
    (V : Validator σ μ) (func : Handler μ α β) (s : σ)
    (resp_schema : Option σ) (st : St μ) (args : α) (msg : String)
    (hviol : V st.reqMedia s (some FormatChecker.mk) =
      .error (.validationError msg)) :
    _validate V func (some s) resp_schema st args =
      .error (.httpBadRequest "Request data failed validation" msg) ∧
    _validate_async V func (some s) resp_schema st args =
      .error (.httpBadRequest "Request data failed validation" msg) := by
  constructor <;> simp [_validate, _validate_async, reqCheck, hviol]

/-- Witness for C1: the spec's example schema with the empty payload. -/
theorem C1_witness :
    _validate jsValidate okHandler (some nameSchema) none (st0 emptyPayload) () =
      .error (.httpBadRequest "Request data failed validation"
        "\x27name\x27 is a required property") ∧
    _validate_async jsValidate okHandler (some nameSchema) none
        (st0 emptyPayload) () =
      .error (.httpBadRequest "Request data failed validation"
        "\x27name\x27 is a required property") :=
  C1_req_invalid_blocks_handler jsValidate okHandler nameSchema none
    (st0 emptyPayload) () "\x27name\x27 is a required property" rfl

/-- C2: for every handler decorated with a non-None response schema, if
the handler completes and the deserialized response body violates that
schema, both wrappers raise `falcon.HTTPInternalServerError` with the
fixed title `Response data failed validation` and no description: the
raised error is a constant independent of the validator's failure message
`msg`, so it cannot contain the failure detail. -/
theorem C2_resp_invalid_internal_error {σ μ α β : Type}
    (V : Validator σ μ) (func : Handler μ α β)
    (req_schema : Option σ) (s : σ) (st st1 : St μ) (args : α)
    (result : β) (msg : String)
    (hreq : ∀ r, req_schema = some r →
      V st.reqMedia r (some FormatChecker.mk) = .ok ())
    (hfunc : func st args = .ok (st1, result))
    (hviol : V st1.respMedia s (some FormatChecker.mk) =
      .error (.validationError msg)) :
    (_validate V func req_schema (some s) st args =
        .error (.httpInternalServerError "Response data failed validation" none) ∧
      _validate_async V func req_schema (some s) st args =
        .error (.httpInternalServerError "Response data failed validation" none)) ∧
    Exc.description
      (.httpInternalServerError "Response data failed validation" none) = none := by
  refine ⟨?_, rfl⟩
  cases req_schema with
  | none =>
      constructor <;> simp [_validate, _validate_async, respCheck, hfunc, hviol]
  | some r =>
      have h := hreq r rfl
      constructor <;>
        simp [_validate, _validate_async, reqCheck, respCheck, h, hfunc, hviol]

/-- Witness for C2: a handler that stores a non-object into `resp.media`
while the response schema requires an object. -/
theorem C2_witness :
    (_validate jsValidate (setHandler (Json.str "nope")) (some nameSchema)
        (some nameSchema) (st0 goodPayload) () =
      .error (.httpInternalServerError "Response data failed validation" none) ∧
    _validate_async jsValidate (setHandler (Json.str "nope")) (some nameSchema)
        (some nameSchema) (st0 goodPayload) () =
      .error (.httpInternalServerError "Response data failed validation" none)) ∧
    Exc.description
      (.httpInternalServerError "Response data failed validation" none) = none :=
  C2_resp_invalid_internal_error jsValidate (setHandler (Json.str "nope"))
    (some nameSchema) nameSchema (st0 goodPayload)
    { reqMedia := goodPayload, respMedia := Json.str "nope" } () 7
    "data is not of type \x27object\x27"
    (fun r hr => by injection hr with h; subst h; rfl) rfl rfl

/-- C3: whenever the request body satisfies the request schema (or that
schema is None) and the handler output satisfies the response schema (or
that schema is None), both wrappers invoke the handler and return its
original return value unchanged. -/
theorem C3_valid_passthrough {σ μ α β : Type}
    (V : Validator σ μ) (func : Handler μ α β)
    (req_schema resp_schema : Option σ) (st st1 : St μ) (args : α) (result : β)
    (hreq : ∀ r, req_schema = some r →
      V st.reqMedia r (some FormatChecker.mk) = .ok ())
    (hfunc : func st args = .ok (st1, result))
    (hresp : ∀ r, resp_schema = some r →
      V st1.respMedia r (some FormatChecker.mk) = .ok ()) :
    _validate V func req_schema resp_schema st args = .ok (st1, result) ∧
    _validate_async V func req_schema resp_schema st args = .ok (st1, result) := by
  cases req_schema with
  | none =>
      cases resp_schema with
      | none => constructor <;> simp [_validate, _validate_async, hfunc]
      | some r2 =>
          have h2 := hresp r2 rfl
          constructor <;> simp [_validate, _validate_async, respCheck, hfunc, h2]
  | some r =>
      have h1 := hreq r rfl
      cases resp_schema with
      | none =>
          constructor <;> simp [_validate, _validate_async, reqCheck, hfunc, h1]
      | some r2 =>
          have h2 := hresp r2 rfl
          constructor <;>
            simp [_validate, _validate_async, reqCheck, respCheck, hfunc, h1, h2]

/-- Witness for C3: both schemas are the example schema, the handler
stores a conforming object into `resp.media` and returns `7`. -/
theorem C3_witness :
    _validate jsValidate (setHandler goodPayload) (some nameSchema)
        (some nameSchema) (st0 goodPayload) () =
      .ok ({ reqMedia := goodPayload, respMedia := goodPayload }, 7) ∧
    _validate_async jsValidate (setHandler goodPayload) (some nameSchema)
        (some nameSchema) (st0 goodPayload) () =
      .ok ({ reqMedia := goodPayload, respMedia := goodPayload }, 7) :=
  C3_valid_passthrough jsValidate (setHandler goodPayload)
    (some nameSchema) (some nameSchema) (st0 goodPayload)
    { reqMedia := goodPayload, respMedia := goodPayload } () 7
    (fun r hr => by injection hr with h; subst h; rfl) rfl
    (fun r hr => by injection hr with h; subst h; rfl)

/-- C4: the synchronous and asynchronous wrappers compute the same
function of the validator, the handler, the schemas and the state — same
validation outcome, same error on failure, same result on success — and
the `validate` decorator agrees with both whichever branch
`iscoroutinefunction` selects. -/
theorem C4_sync_async_equal {σ μ α β : Type}
    (V : Validator σ μ) (func : Handler μ α β)
    (req_schema resp_schema : Option σ) (st : St μ) (args : α)
    (iscoroutinefunction : Bool) :
    _validate_async V func req_schema resp_schema st args =
      _validate V func req_schema resp_schema st args ∧
    validate V req_schema resp_schema iscoroutinefunction func st args =
      _validate V func req_schema resp_schema st args := by
  refine ⟨rfl, ?_⟩
  cases iscoroutinefunction <;> rfl

/-- Helper: erasing the trace of the instrumented wrapper yields exactly
the plain wrapper's outcome, so the instrumentation is faithful. -/
theorem validateEv_fst {σ μ α β : Type}
    (V : Validator σ μ) (func : Handler μ α β)
    (req_schema resp_schema : Option σ) (st : St μ) (args : α) :
    (_validateEv V func req_schema resp_schema st args).1 =
      _validate V func req_schema resp_schema st args := by
  cases hq : req_schema with
  | some s =>
    cases hc : reqCheck V s st.reqMedia with
    | error e => simp [_validateEv, _validate, hc]
    | ok u =>
      cases u
      cases hf : func st args with
      | error e => simp [_validateEv, _validate, hc, hf]
      | ok p =>
        obtain ⟨st1, r⟩ := p
        cases hr : resp_schema with
        | some s2 =>
          cases hc2 : respCheck V s2 st1.respMedia with
          | error e2 => simp [_validateEv, _validate, hc, hf, hc2]
          | ok u2 => cases u2; simp [_validateEv, _validate, hc, hf, hc2]
        | none => simp [_validateEv, _validate, hc, hf]
  | none =>
    cases hf : func st args with
    | error e => simp [_validateEv, _validate, hf]
    | ok p =>
      obtain ⟨st1, r⟩ := p
      cases hr : resp_schema with
      | some s2 =>
        cases hc2 : respCheck V s2 st1.respMedia with
        | error e2 => simp [_validateEv, _validate, hf, hc2]
        | ok u2 => cases u2; simp [_validateEv, _validate, hf, hc2]
      | none => simp [_validateEv, _validate, hf]

/-- Helper: in every run the trace of observable steps is an ordered
sub-sequence of request-validation, handler call, response-validation;
when a request schema is present the very first step is the request
validation; and a response validation can only appear after the handler
was called. -/
theorem validateEv_trace_shape {σ μ α β : Type}
    (V : Validator σ μ) (func : Handler μ α β)
    (req_schema resp_schema : Option σ) (st : St μ) (args : α) :
    (_validateEv V func req_schema resp_schema st args).2.Sublist
      [Ev.validateReq, Ev.callHandler, Ev.validateResp] ∧
    (req_schema.isSome →
      (_validateEv V func req_schema resp_schema st args).2.head? =
        some Ev.validateReq) ∧
    (Ev.validateResp ∈ (_validateEv V func req_schema resp_schema st args).2 →
      Ev.callHandler ∈ (_validateEv V func req_schema resp_schema st args).2) := by
  cases hq : req_schema with
  | some s =>
    cases hc : reqCheck V s st.reqMedia with
    | error e => simp [_validateEv, hc]
    | ok u =>
      cases u
      cases hf : func st args with
      | error e => simp [_validateEv, hc, hf]
      | ok p =>
        obtain ⟨st1, r⟩ := p
        cases hr : resp_schema with
        | some s2 =>
          cases hc2 : respCheck V s2 st1.respMedia with
          | error e2 => simp [_validateEv, hc, hf, hc2]
          | ok u2 => cases u2; simp [_validateEv, hc, hf, hc2]
        | none => simp [_validateEv, hc, hf]
  | none =>
    cases hf : func st args with
    | error e => simp [_validateEv, hf]
    | ok p =>
      obtain ⟨st1, r⟩ := p
      cases hr : resp_schema with
      | some s2 =>
        cases hc2 : respCheck V s2 st1.respMedia with
        | error e2 => simp [_validateEv, hf, hc2]
        | ok u2 => cases u2; simp [_validateEv, hf, hc2]
      | none => simp [_validateEv, hf]

/-- C5: in every invocation of either wrapper, request validation (when a
request schema is given) is the first observable step — strictly before
the handler runs — and response validation can only occur after the
handler call: the trace is always an ordered sub-sequence of
request-validation, handler, response-validation; the instrumented
wrappers compute the same outcome as the plain ones. -/
theorem C5_validation_ordering {σ μ α β : Type}
    (V : Validator σ μ) (func : Handler μ α β)
    (req_schema resp_schema : Option σ) (st : St μ) (args : α) :
    ((_validateEv V func req_schema resp_schema st args).2.Sublist
        [Ev.validateReq, Ev.callHandler, Ev.validateResp] ∧
      (req_schema.isSome →
        (_validateEv V func req_schema resp_schema st args).2.head? =
          some Ev.validateReq) ∧
      (Ev.validateResp ∈ (_validateEv V func req_schema resp_schema st args).2 →
        Ev.callHandler ∈ (_validateEv V func req_schema resp_schema st args).2) ∧
      (_validateEv V func req_schema resp_schema st args).1 =
        _validate V func req_schema resp_schema st args) ∧
    ((_validate_asyncEv V func req_schema resp_schema st args).2.Sublist
        [Ev.validateReq, Ev.callHandler, Ev.validateResp] ∧
      (req_schema.isSome →
        (_validate_asyncEv V func req_schema resp_schema st args).2.head? =
          some Ev.validateReq) ∧
      (Ev.validateResp ∈
          (_validate_asyncEv V func req_schema resp_schema st args).2 →
        Ev.callHandler ∈
          (_validate_asyncEv V func req_schema resp_schema st args).2) ∧
      (_validate_asyncEv V func req_schema resp_schema st args).1 =
        _validate_async V func req_schema resp_schema st args) := by
  obtain ⟨h1, h2, h3⟩ := validateEv_trace_shape V func req_schema resp_schema st args
  have h4 := validateEv_fst V func req_schema resp_schema st args
  exact ⟨⟨h1, h2, h3, h4⟩, ⟨h1, h2, h3, h4⟩⟩

/-- C6: both schema arguments are optional: with `req_schema = None`
neither wrapper ever performs a request validation step, with
`resp_schema = None` neither ever performs a response validation step,
and with both absent each wrapper is exactly the bare handler — so no
client error can arise from the request body and no server error from
the response body. -/
theorem C6_schemas_optional {σ μ α β : Type}
    (V : Validator σ μ) (func : Handler μ α β)
    (req_schema resp_schema : Option σ) (st : St μ) (args : α) :
    Ev.validateReq ∉ (_validateEv V func none resp_schema st args).2 ∧
    Ev.validateResp ∉ (_validateEv V func req_schema none st args).2 ∧
    Ev.validateReq ∉ (_validate_asyncEv V func none resp_schema st args).2 ∧
    Ev.validateResp ∉ (_validate_asyncEv V func req_schema none st args).2 ∧
    _validate V func none none st args = func st args ∧
    _validate_async V func none none st args = func st args := by
  have hbase : _validate V func none none st args = func st args := by
    cases hf : func st args with
    | error e => simp [_validate, hf]
    | ok p => obtain ⟨st1, r⟩ := p; simp [_validate, hf]
  have hreq : Ev.validateReq ∉ (_validateEv V func none resp_schema st args).2 := by
    cases hf : func st args with
    | error e => simp [_validateEv, hf]
    | ok p =>
      obtain ⟨st1, r⟩ := p
      cases hr : resp_schema with
      | some s2 =>
        cases hc2 : respCheck V s2 st1.respMedia with
        | error e2 => simp [_validateEv, hf, hc2]
        | ok u2 => cases u2; simp [_validateEv, hf, hc2]
      | none => simp [_validateEv, hf]
  have hresp : Ev.validateResp ∉ (_validateEv V func req_schema none st args).2 := by
    cases hq : req_schema with
    | some s =>
      cases hc : reqCheck V s st.reqMedia with
      | error e => simp [_validateEv, hc]
      | ok u =>
        cases u
        cases hf : func st args with
        | error e => simp [_validateEv, hc, hf]
        | ok p => obtain ⟨st1, r⟩ := p; simp [_validateEv, hc, hf]
    | none =>
      cases hf : func st args with
      | error e => simp [_validateEv, hf]
      | ok p => obtain ⟨st1, r⟩ := p; simp [_validateEv, hf]
  exact ⟨hreq, hresp, hreq, hresp, hbase, hbase⟩

/-- C7: with the request schema `{"type": "object", "required": ["name"]}`,
the payload `{"name": "x"}` passes validation and the handler runs
(returning its value `42`), while the payload `{}` raises
`falcon.HTTPBadRequest` whose description `'name' is a required property`
mentions the missing `name` property. -/
theorem C7_example_schema :
    (jsValidate goodPayload nameSchema (some FormatChecker.mk) = .ok () ∧
      _validate jsValidate okHandler (some nameSchema) none
          (st0 goodPayload) () =
        .ok (st0 goodPayload, 42)) ∧
    (_validate jsValidate okHandler (some nameSchema) none
          (st0 emptyPayload) () =
        .error (.httpBadRequest "Request data failed validation"
          "\x27name\x27 is a required property") ∧
      mentions "\x27name\x27 is a required property" "name" = true) := by
  refine ⟨⟨rfl, rfl⟩, rfl, ?_⟩
  decide

/-- C8: the wrappers have no side effects beyond raising errors: whenever
either wrapper returns successfully, the returned state and result are
exactly what the handler produced from the wrapper's unmodified input
state — the wrapper itself alters neither the request payload, nor the
response payload, nor the (immutable, by construction) schema values. -/
theorem C8_no_wrapper_mutation {σ μ α β : Type}
    (V : Validator σ μ) (func : Handler μ α β)
    (req_schema resp_schema : Option σ) (st st1 : St μ) (args : α) (result : β)
    (hsync : _validate V func req_schema resp_schema st args =
      .ok (st1, result)) :
    func st args = .ok (st1, result) ∧
    _validate_async V func req_schema resp_schema st args =
      .ok (st1, result) := by
  refine ⟨?_, hsync⟩
  cases req_schema with
  | some s =>
    cases hc : reqCheck V s st.reqMedia with
    | error e => simp [_validate, hc] at hsync
    | ok u =>
      cases u
      cases hf : func st args with
      | error e => simp [_validate, hc, hf] at hsync
      | ok p =>
        obtain ⟨st2, r2⟩ := p
        cases resp_schema with
        | some s2 =>
          cases hc2 : respCheck V s2 st2.respMedia with
          | error e2 => simp [_validate, hc, hf, hc2] at hsync
          | ok u2 =>
            cases u2
            simp [_validate, hc, hf, hc2] at hsync
            obtain ⟨h1, h2⟩ := hsync
            subst h1; subst h2
            rfl
        | none =>
          simp [_validate, hc, hf] at hsync
          obtain ⟨h1, h2⟩ := hsync
          subst h1; subst h2
          rfl
  | none =>
    cases hf : func st args with
    | error e => simp [_validate, hf] at hsync
    | ok p =>
      obtain ⟨st2, r2⟩ := p
      cases resp_schema with
      | some s2 =>
        cases hc2 : respCheck V s2 st2.respMedia with
        | error e2 => simp [_validate, hf, hc2] at hsync
        | ok u2 =>
          cases u2
          simp [_validate, hf, hc2] at hsync
          obtain ⟨h1, h2⟩ := hsync
          subst h1; subst h2
          rfl
      | none =>
        simp [_validate, hf] at hsync
        obtain ⟨h1, h2⟩ := hsync
        subst h1; subst h2
        rfl

/-- Witness for C8: a successful run whose returned state and value are
exactly the handler's. -/
theorem C8_witness :
    setHandler goodPayload (st0 goodPayload) () =
      .ok ({ reqMedia := goodPayload, respMedia := goodPayload }, 7) ∧
    _validate_async jsValidate (setHandler goodPayload) (some nameSchema)
        (some nameSchema) (st0 goodPayload) () =
      .ok ({ reqMedia := goodPayload, respMedia := goodPayload }, 7) :=
  C8_no_wrapper_mutation jsValidate (setHandler goodPayload) (some nameSchema)
    (some nameSchema) (st0 goodPayload)
    { reqMedia := goodPayload, respMedia := goodPayload } () 7 rfl

/-- Helper: a non-ValidationError exception raised inside the request
validation try block is rethrown as is. -/
theorem reqCheck_other {σ μ : Type} (V : Validator σ μ) (s : σ) (m : μ)
    (e : Exc) (hnv : e.isValidationError = false)
    (h : V m s (some FormatChecker.mk) = .error e) :
    reqCheck V s m = .error e := by
  cases e with
  | validationError msg => simp [Exc.isValidationError] at hnv
  | httpBadRequest t d => simp [reqCheck, h]
  | httpInternalServerError t d => simp [reqCheck, h]
  | other tag => simp [reqCheck, h]

/-- Helper: a non-ValidationError exception raised inside the response
validation try block is rethrown as is. -/
theorem respCheck_other {σ μ : Type} (V : Validator σ μ) (s : σ) (m : μ)
    (e : Exc) (hnv : e.isValidationError = false)
    (h : V m s (some FormatChecker.mk) = .error e) :
    respCheck V s m = .error e := by
  cases e with
  | validationError msg => simp [Exc.isValidationError] at hnv
  | httpBadRequest t d => simp [respCheck, h]
  | httpInternalServerError t d => simp [respCheck, h]
  | other tag => simp [respCheck, h]

/-- C9: only `jsonschema.ValidationError` is converted into an HTTP error:
a non-ValidationError exception raised while validating the request or the
response propagates to the caller unchanged, and any exception raised by
the handler itself — even a ValidationError — propagates unchanged,
in both wrappers. -/
theorem C9_only_validation_error_converted {σ μ α β : Type}
    (V : Validator σ μ) (func : Handler μ α β)
    (req_schema resp_schema : Option σ) (s : σ) (st st1 : St μ) (args : α)
    (result : β) (e e2 : Exc)
    (hnv : e.isValidationError = false) :
    (V st.reqMedia s (some FormatChecker.mk) = .error e →
      _validate V func (some s) resp_schema st args = .error e ∧
      _validate_async V func (some s) resp_schema st args = .error e) ∧
    ((∀ r, req_schema = some r →
        V st.reqMedia r (some FormatChecker.mk) = .ok ()) →
      func st args = .error e2 →
      _validate V func req_schema resp_schema st args = .error e2 ∧
      _validate_async V func req_schema resp_schema st args = .error e2) ∧
    ((∀ r, req_schema = some r →
        V st.reqMedia r (some FormatChecker.mk) = .ok ()) →
      func st args = .ok (st1, result) →
      V st1.respMedia s (some FormatChecker.mk) = .error e →
      _validate V func req_schema (some s) st args = .error e ∧
      _validate_async V func req_schema (some s) st args = .error e) := by
  refine ⟨?_, ?_, ?_⟩
  · intro hV
    have hrc := reqCheck_other V s st.reqMedia e hnv hV
    constructor <;> simp [_validate, _validate_async, hrc]
  · intro hreq hf
    cases req_schema with
    | none => constructor <;> simp [_validate, _validate_async, hf]
    | some r =>
      have h := hreq r rfl
      constructor <;> simp [_validate, _validate_async, reqCheck, h, hf]
  · intro hreq hf hV
    have hrc := respCheck_other V s st1.respMedia e hnv hV
    cases req_schema with
    | none => constructor <;> simp [_validate, _validate_async, hf, hrc]
    | some r =>
      have h := hreq r rfl
      constructor <;> simp [_validate, _validate_async, reqCheck, h, hf, hrc]

/-- Witness for C9: a `SchemaError`-raising validator propagates unchanged
through both the request and the response validation, and a
ValidationError raised by the handler itself is not converted. -/
theorem C9_witness :
    (_validate badValidator okHandler (some nameSchema) none
        (st0 goodPayload) () = .error (.other "SchemaError") ∧
      _validate_async badValidator okHandler (some nameSchema) none
        (st0 goodPayload) () = .error (.other "SchemaError")) ∧
    (_validate jsValidate (raiseHandler (.validationError "boom")) none none
        (st0 goodPayload) () = .error (.validationError "boom") ∧
      _validate_async jsValidate (raiseHandler (.validationError "boom")) none
        none (st0 goodPayload) () = .error (.validationError "boom")) ∧
    (_validate badValidator (setHandler goodPayload) none (some nameSchema)
        (st0 goodPayload) () = .error (.other "SchemaError") ∧
      _validate_async badValidator (setHandler goodPayload) none
        (some nameSchema) (st0 goodPayload) () =
          .error (.other "SchemaError")) :=
  ⟨(C9_only_validation_error_converted badValidator okHandler none none
      nameSchema (st0 goodPayload) (st0 goodPayload) () 42
      (Exc.other "SchemaError") (Exc.other "SchemaError") rfl).1 rfl,
    (C9_only_validation_error_converted jsValidate
      (raiseHandler (.validationError "boom")) none none nameSchema
      (st0 goodPayload) (st0 goodPayload) () 42 (Exc.other "x")
      (Exc.validationError "boom") rfl).2.1 (fun _r hr => nomatch hr) rfl,
    (C9_only_validation_error_converted badValidator (setHandler goodPayload)
      none (some nameSchema) nameSchema (st0 goodPayload)
      { reqMedia := goodPayload, respMedia := goodPayload } () 7
      (Exc.other "SchemaError") (Exc.other "x") rfl).2.2
      (fun _r hr => nomatch hr) rfl rfl⟩

/-- C10: every validation call in both wrappers passes a
`jsonschema.FormatChecker` instance: the wrappers depend on the validator
only through its format-checker-enabled entry (request and response, sync
and async), and a payload whose only violation is caught by the format
checker — the checker-less call accepts it — is still rejected. -/
theorem C10_format_checker_enabled {σ μ α β : Type}
    (V W : Validator σ μ) (func : Handler μ α β)
    (req_schema resp_schema : Option σ) (st : St μ) (args : α) (s : σ)
    (msg : String)
    (hagree : ∀ m r, V m r (some FormatChecker.mk) =
      W m r (some FormatChecker.mk))
    (hfmt : V st.reqMedia s (some FormatChecker.mk) =
      .error (.validationError msg))
    (hnofmt : V st.reqMedia s none = .ok ()) :
    (_validate V func req_schema resp_schema st args =
        _validate W func req_schema resp_schema st args ∧
      _validate_async V func req_schema resp_schema st args =
        _validate_async W func req_schema resp_schema st args) ∧
    _validate V func (some s) resp_schema st args =
      .error (.httpBadRequest "Request data failed validation" msg) ∧
    V st.reqMedia s none = .ok () := by
  have hrc : ∀ r m, reqCheck V r m = reqCheck W r m := fun r m => by
    simp [reqCheck, hagree m r]
  have hpc : ∀ r m, respCheck V r m = respCheck W r m := fun r m => by
    simp [respCheck, hagree m r]
  have hVW : ∀ (a b : Option σ), _validate V func a b st args =
      _validate W func a b st args := by
    intro a b
    cases a with
    | some s1 =>
      cases hc : reqCheck W s1 st.reqMedia with
      | error e => simp [_validate, hrc, hc]
      | ok u =>
        cases u
        cases hf : func st args with
        | error e => simp [_validate, hrc, hc, hf]
        | ok p =>
          obtain ⟨st1, r⟩ := p
          cases b with
          | some s2 =>
            cases hc2 : respCheck W s2 st1.respMedia with
            | error e2 => simp [_validate, hrc, hpc, hc, hf, hc2]
            | ok u2 => cases u2; simp [_validate, hrc, hpc, hc, hf, hc2]
          | none => simp [_validate, hrc, hc, hf]
    | none =>
      cases hf : func st args with
      | error e => simp [_validate, hf]
      | ok p =>
        obtain ⟨st1, r⟩ := p
        cases b with
        | some s2 =>
          cases hc2 : respCheck W s2 st1.respMedia with
          | error e2 => simp [_validate, hpc, hf, hc2]
          | ok u2 => cases u2; simp [_validate, hpc, hf, hc2]
        | none => simp [_validate, hf]
  refine ⟨⟨hVW req_schema resp_schema, hVW req_schema resp_schema⟩, ?_, hnofmt⟩
  simp [_validate, reqCheck, hfmt]

/-- Witness for C10: the email-format schema accepts the string
`no-at-sign` when no format checker is passed, yet the wrapper rejects
it, because it always passes one. -/
theorem C10_witness :
    (_validate jsValidate okHandler (some emailSchema) none
        (st0 (Json.str "no-at-sign")) () =
      _validate jsValidate okHandler (some emailSchema) none
        (st0 (Json.str "no-at-sign")) () ∧
      _validate_async jsValidate okHandler (some emailSchema) none
        (st0 (Json.str "no-at-sign")) () =
      _validate_async jsValidate okHandler (some emailSchema) none
        (st0 (Json.str "no-at-sign")) ()) ∧
    _validate jsValidate okHandler (some emailSchema) none
        (st0 (Json.str "no-at-sign")) () =
      .error (.httpBadRequest "Request data failed validation"
        "\x27no-at-sign\x27 is not a \x27email\x27") ∧
    jsValidate (Json.str "no-at-sign") emailSchema none = .ok () :=
  C10_format_checker_enabled jsValidate jsValidate okHandler
    (some emailSchema) none (st0 (Json.str "no-at-sign")) () emailSchema
    "\x27no-at-sign\x27 is not a \x27email\x27"
    (fun _m _r => rfl) rfl rfl

end Falcon.Jsonschema
